import Mathlib

/-!
Verification of the Retail Management System backend (`rms_backend.py`).

The development shallowly embeds the persistent state (products, sales,
sale items) and the service operations: `create_sale` (with the HTTP
endpoint `create_new_sale` providing commit/rollback semantics),
`get_products`, `update_product`, `delete_product`, `get_sales_summary`
and `get_low_stock_report`.

Modelling conventions:
* Database rows become Lean structures; the surrogate primary key of
  `sale_items` is not modelled (nothing reads it).  Suppliers and
  customers are carried only as foreign-key values since no verified
  operation inspects those tables.
* Python integers are `Int` (quantities and prices carry no sign
  restriction in the source); row ids are `Nat`.
* Timestamps (`created_at`, produced by `datetime.now`) are microseconds
  since the epoch, as a `Nat`; a calendar date is a day number, and
  `datetime.combine(d, time.min/max)` becomes the first/last microsecond
  of day `d`.
* `int(subtotal_cents * TAX_RATE)` is modelled exactly as IEEE-754
  binary64 evaluation: `subtotal_cents` is rounded to a double, the
  product with the double nearest 0.08 is rounded to nearest (ties to
  even), and the result truncated toward zero.
* The per-request session with commit/rollback becomes explicit state
  passing: endpoint wrappers return the new state on success and the
  unchanged state on an error path (the rollback).
-/

namespace RMS

/-- A row of the `products` table. -/
structure Product where
  id : Nat
  name : String
  sku : String
  unit_price_cents : Int
  quantity_available : Int
  reorder_level : Int
  supplier_id : Option Nat := none
deriving DecidableEq

/-- A row of the `sales` table. -/
structure Sale where
  id : Nat
  customer_id : Option Nat := none
  subtotal_cents : Int
  tax_cents : Int
  total_cents : Int
  created_at : Nat
deriving DecidableEq

/-- A row of the `sale_items` table (surrogate key omitted). -/
structure SaleItem where
  sale_id : Nat
  product_id : Nat
  unit_price_cents : Int
  quantity : Int
  line_total_cents : Int
deriving DecidableEq

/-- Request schema `SaleItemBase`: one requested line of a sale. -/
structure SaleItemBase where
  product_id : Nat
  quantity : Int
deriving DecidableEq

/-- Request schema `SaleCreate`. -/
structure SaleCreate where
  customer_id : Option Nat := none
  items : List SaleItemBase
deriving DecidableEq

/-- Request schema `ProductUpdate`: `some v` is a field present in the
request (`model_dump(exclude_unset=True)` keeps it), `none` a field
absent from the request. -/
structure ProductUpdate where
  name : Option String := none
  sku : Option String := none
  unit_price_cents : Option Int := none
  quantity_available : Option Int := none
  reorder_level : Option Int := none
  supplier_id : Option (Option Nat) := none
deriving DecidableEq

/-- Response schema `SalesSummary`. -/
structure SalesSummary where
  from_date : Nat
  to_date : Nat
  total_revenue_cents : Int
  transaction_count : Nat
  average_order_value_cents : Int
deriving DecidableEq

/-- An `HTTPException(status_code, detail)`. -/
structure HTTPError where
  status : Nat
  detail : String
deriving DecidableEq

instance {ε α : Type} [DecidableEq ε] [DecidableEq α] : DecidableEq (Except ε α) := fun x y =>
  match x, y with
  | .ok a, .ok b => decidable_of_iff (a = b) (by simp)
  | .error a, .error b => decidable_of_iff (a = b) (by simp)
  | .ok _, .error _ => .isFalse (by simp)
  | .error _, .ok _ => .isFalse (by simp)

/-- The persistent store: the tables the verified operations touch, the
autoincrement counter for `sales.id`, and the current clock
(microseconds) used for `created_at` defaults. -/
structure State where
  products : List Product
  sales : List Sale
  sale_items : List SaleItem
  next_sale_id : Nat
  now : Nat
deriving DecidableEq

/-! ### Exact model of `int(subtotal_cents * TAX_RATE)`, `TAX_RATE = 0.08`

The IEEE-754 binary64 nearest to the literal `0.08` is
`5764607523034235 / 2 ^ 56` (note `25 * 5764607523034235 = 2 ^ 57 + 3`).
CPython promotes the `int` operand to a double (one round-to-nearest),
multiplies (one more round-to-nearest, ties to even) and `int(...)`
truncates toward zero.  Exponent-overflow to infinity is unreachable for
any representable state and is not modelled. -/

/-- Numerator of the binary64 value of the literal `0.08` over `2 ^ 56`. -/
def TAXRATE_NUM : Nat := 5764607523034235

/-- Fuel-driven base-2 logarithm; with fuel at least `n` this computes
`Nat.log2 n` by structural recursion, so concrete values reduce inside
the kernel. -/
def log2fuel : Nat → Nat → Nat
  | 0, _ => 0
  | fuel + 1, n => if n ≤ 1 then 0 else log2fuel fuel (n / 2) + 1

/-- `Nat.log2`, packaged to be kernel-computable (see `log2spec_eq`). -/
def log2spec (n : Nat) : Nat := log2fuel n n

/-- Round `p / 2 ^ shift` to the nearest integer, ties to even. -/
def rne (p shift : Nat) : Nat :=
  if shift = 0 then p
  else
    let q := p / 2 ^ shift
    let r := p % 2 ^ shift
    let h := 2 ^ (shift - 1)
    if h < r then q + 1
    else if r < h then q
    else if q % 2 = 0 then q else q + 1

/-- The nearest binary64 to the natural number `n` (round to nearest,
ties to even), as a natural number: `n` is kept to 53 significant bits. -/
def round53 (n : Nat) : Nat :=
  rne n (log2spec n - 52) * 2 ^ (log2spec n - 52)

/-- `int(s * 0.08)` for a nonnegative Python `int` `s`, evaluated in
binary64 exactly as CPython does. -/
def floatTaxNat (s : Nat) : Nat :=
  let p := round53 s * TAXRATE_NUM
  let shift := log2spec p - 52
  rne p shift * 2 ^ shift / 2 ^ 56

/-- `int(s * TAX_RATE)` for any Python `int` `s`: binary64 conversion,
multiplication and `int` truncation are all symmetric under negation. -/
def intTimesTaxRate (s : Int) : Int :=
  if 0 ≤ s then (floatTaxNat s.toNat : Int) else -(floatTaxNat (-s).toNat : Int)

/-! ### `create_sale` -/

/-- Detail string of the non-positive-quantity rejection. -/
def invalidQtyDetail (pid : Nat) : String :=
  "Item quantity must be positive: Product " ++ toString pid

/-- Detail string of the missing-product rejection. -/
def notFoundDetail (pid : Nat) : String :=
  "Product not found: id " ++ toString pid

/-- Detail string of the insufficient-stock rejection. -/
def insufficientDetail (name sku : String) (requested available : Int) : String :=
  "Insufficient stock for " ++ name ++ " (SKU: " ++ sku ++ "). Requested: " ++
    toString requested ++ ", Available: " ++ toString available

/-- `db.query(Product).filter(Product.id == pid).first()` (the
`with_for_update` row lock is the transaction-isolation device and has
no effect on the sequential semantics embedded here). -/
def findProduct (st : State) (pid : Nat) : Option Product :=
  st.products.find? (fun p => p.id = pid)

/-- Accumulator entry of `line_items_data`. -/
structure LineItemData where
  product_id : Nat
  unit_price_cents : Int
  quantity : Int
  line_total_cents : Int
deriving DecidableEq

/-- The validation/accumulation loop of `create_sale`: walks the
requested items in input order and either stops at the first offending
item with its `HTTPException`, or returns `products_to_update` (as
(product id, quantity) pairs), `line_items_data`, and `subtotal_cents`. -/
def processItems (st : State) : List SaleItemBase →
    Except HTTPError (List (Nat × Int) × List LineItemData × Int)
  | [] => .ok ([], [], 0)
  | item :: rest =>
    if item.quantity ≤ 0 then
      .error ⟨400, invalidQtyDetail item.product_id⟩
    else
      match findProduct st item.product_id with
      | none => .error ⟨404, notFoundDetail item.product_id⟩
      | some product =>
        if product.quantity_available < item.quantity then
          .error ⟨400, insufficientDetail product.name product.sku
                    item.quantity product.quantity_available⟩
        else
          match processItems st rest with
          | .error e => .error e
          | .ok (updates, lines, subtotal) =>
            .ok ((product.id, item.quantity) :: updates,
                 ⟨product.id, product.unit_price_cents, item.quantity,
                   product.unit_price_cents * item.quantity⟩ :: lines,
                 product.unit_price_cents * item.quantity + subtotal)

/-- The decrement loop `product.quantity_available -= quantity_sold`:
each (product id, quantity) pair lowers the stock of the row with that
primary key (SQLAlchemy's identity map makes repeated pairs for the same
id hit the same row repeatedly). -/
def applyDecrements (products : List Product) (updates : List (Nat × Int)) : List Product :=
  updates.foldl
    (fun ps u => ps.map (fun p =>
      if p.id = u.1 then { p with quantity_available := p.quantity_available - u.2 } else p))
    products

/-- `create_sale(db, sale_data)`: empty-list guard, the per-item
validation loop, tax and total, then the writes (the new `Sale` row, its
`SaleItem` rows, the stock decrements). -/
def createSale (st : State) (sale_data : SaleCreate) : Except HTTPError (Sale × State) :=
  if sale_data.items.isEmpty then
    .error ⟨400, "Sale must contain at least one item."⟩
  else
    match processItems st sale_data.items with
    | .error e => .error e
    | .ok (updates, lines, subtotal_cents) =>
      let tax_cents := intTimesTaxRate subtotal_cents
      let total_cents := subtotal_cents + tax_cents
      let new_sale : Sale :=
        { id := st.next_sale_id, customer_id := sale_data.customer_id,
          subtotal_cents := subtotal_cents, tax_cents := tax_cents,
          total_cents := total_cents, created_at := st.now }
      let new_items := lines.map (fun l =>
        { sale_id := new_sale.id, product_id := l.product_id,
          unit_price_cents := l.unit_price_cents, quantity := l.quantity,
          line_total_cents := l.line_total_cents : SaleItem })
      .ok (new_sale,
           { st with products := applyDecrements st.products updates,
                     sales := st.sales ++ [new_sale],
                     sale_items := st.sale_items ++ new_items,
                     next_sale_id := st.next_sale_id + 1 })

/-- Endpoint `create_new_sale`: commit on success, rollback (the state
is returned unchanged) on an `HTTPException`. -/
def createNewSale (st : State) (sale_data : SaleCreate) : Except HTTPError Sale × State :=
  match createSale st sale_data with
  | .ok (sale, st') => (.ok sale, st')
  | .error e => (.error e, st)

/-! ### Product endpoints -/

/-- Byte-wise lexicographic string comparison on code points: the
embedding of SQL `ORDER BY name`. -/
def charListLe : List Char → List Char → Bool
  | [], _ => true
  | _ :: _, [] => false
  | a :: as, b :: bs =>
    if a.toNat < b.toNat then true
    else if b.toNat < a.toNat then false
    else charListLe as bs

/-- Ordering of products by `name` (SQL `order_by(Product.name)`). -/
def nameLe (a b : Product) : Prop :=
  charListLe a.name.data b.name.data = true

instance : DecidableRel nameLe := fun _ _ =>
  inferInstanceAs (Decidable (_ = true))

/-- Ordering of products by `quantity_available`
(SQL `order_by(Product.quantity_available.asc())`). -/
def qtyLe (a b : Product) : Prop :=
  a.quantity_available ≤ b.quantity_available

instance : DecidableRel qtyLe := fun _ _ =>
  inferInstanceAs (Decidable (_ ≤ _))

/-- Endpoint `get_products`: `ORDER BY name`, then `OFFSET skip LIMIT
limit`; the query-parameter defaults are `skip = 0`, `limit = 100`. -/
def getProducts (st : State) (skip : Nat := 0) (limit : Nat := 100) : List Product :=
  ((List.insertionSort nameLe st.products).drop skip).take limit

/-- Endpoint `update_product`: 404 when the id is absent, otherwise
`setattr` for exactly the fields of `model_dump(exclude_unset=True)` on
the row with that primary key; returns the refreshed product. -/
def updateProduct (st : State) (product_id : Nat) (upd : ProductUpdate) :
    Except HTTPError (Product × State) :=
  match findProduct st product_id with
  | none => .error ⟨404, "Product not found"⟩
  | some p =>
    let p' : Product :=
      { p with name := upd.name.getD p.name,
               sku := upd.sku.getD p.sku,
               unit_price_cents := upd.unit_price_cents.getD p.unit_price_cents,
               quantity_available := upd.quantity_available.getD p.quantity_available,
               reorder_level := upd.reorder_level.getD p.reorder_level,
               supplier_id := upd.supplier_id.getD p.supplier_id }
    .ok (p', { st with products := st.products.map (fun q => if q.id = product_id then p' else q) })

/-- Endpoint `delete_product`: 404 when the id is absent, 400 when some
`SaleItem` references the product, otherwise the row found is deleted. -/
def deleteProduct (st : State) (product_id : Nat) : Except HTTPError State :=
  match findProduct st product_id with
  | none => .error ⟨404, "Product not found"⟩
  | some _ =>
    if (st.sale_items.find? (fun si => si.product_id = product_id)).isSome then
      .error ⟨400, "Cannot delete product, it is associated with existing sales."⟩
    else
      .ok { st with products := st.products.eraseP (fun p => p.id = product_id) }

/-- The `delete_product` endpoint with its commit/rollback: the state is
unchanged on every error path. -/
def deleteProductEndpoint (st : State) (product_id : Nat) : Except HTTPError Unit × State :=
  match deleteProduct st product_id with
  | .ok st' => (.ok (), st')
  | .error e => (.error e, st)

/-! ### Report endpoints -/

/-- Microseconds per calendar day: `datetime.max.time()` is
`23:59:59.999999`, so day `d` spans `[d * US_PER_DAY, (d+1) * US_PER_DAY - 1]`. -/
def US_PER_DAY : Nat := 86400000000

/-- Endpoint `get_sales_summary`: aggregates `SUM(total_cents)` and
`COUNT(id)` over sales with `from_datetime ≤ created_at ≤ to_datetime`
(`datetime.combine(from_date, time.min)` / `combine(to_date, time.max)`),
`NULL` sums read as 0, and `//` on the Python ints for the average. -/
def getSalesSummary (st : State) (from_date to_date : Nat) : SalesSummary :=
  let from_datetime := from_date * US_PER_DAY
  let to_datetime := to_date * US_PER_DAY + (US_PER_DAY - 1)
  let in_range := st.sales.filter
    (fun s => from_datetime ≤ s.created_at && s.created_at ≤ to_datetime)
  let total_revenue : Int := (in_range.map (fun s => s.total_cents)).sum
  let tx_count : Nat := in_range.length
  { from_date := from_date, to_date := to_date,
    total_revenue_cents := total_revenue,
    transaction_count := tx_count,
    average_order_value_cents :=
      if 0 < tx_count then Int.fdiv total_revenue tx_count else 0 }

/-- Endpoint `get_low_stock_report`: filter by the given threshold, or
by each product's own `reorder_level` when none is given, then
`ORDER BY quantity_available ASC`. -/
def getLowStockReport (st : State) (threshold : Option Int) : List Product :=
  match threshold with
  | some t =>
    List.insertionSort qtyLe (st.products.filter (fun p => p.quantity_available ≤ t))
  | none =>
    List.insertionSort qtyLe (st.products.filter (fun p => p.quantity_available ≤ p.reorder_level))

/-! ### Specification-side helpers (used only to state the claims) -/

/-- The unit price a product id has in the store at call time (0 for a
missing id; every use is guarded by existence). -/
def priceOf (st : State) (pid : Nat) : Int :=
  ((findProduct st pid).map (fun p => p.unit_price_cents)).getD 0

/-- The sum over the requested items of unit price at call time times
requested quantity. -/
def subtotalSpec (st : State) (items : List SaleItemBase) : Int :=
  (items.map (fun it => priceOf st it.product_id * it.quantity)).sum

/-- The `HTTPException` the `create_sale` loop raises at a given item,
`none` when the item passes all three checks. -/
def itemCheckError (st : State) (item : SaleItemBase) : Option HTTPError :=
  if item.quantity ≤ 0 then some ⟨400, invalidQtyDetail item.product_id⟩
  else
    match findProduct st item.product_id with
    | none => some ⟨404, notFoundDetail item.product_id⟩
    | some product =>
      if product.quantity_available < item.quantity then
        some ⟨400, insufficientDetail product.name product.sku
                item.quantity product.quantity_available⟩
      else none

/-- An item that passes validation against the current store. -/
def itemPasses (st : State) (item : SaleItemBase) : Bool :=
  (itemCheckError st item).isNone

/-- Whether a sale's creation timestamp falls on a day between
`from_date` and `to_date` inclusive. -/
def saleInDayRange (from_date to_date : Nat) (s : Sale) : Prop :=
  from_date ≤ s.created_at / US_PER_DAY ∧ s.created_at / US_PER_DAY ≤ to_date

instance : ∀ fd td s, Decidable (saleInDayRange fd td s) := fun _ _ _ =>
  inferInstanceAs (Decidable (_ ∧ _))

/-! ### Concrete fixtures (inputs and expected outputs of the example runs) -/

/-- Product A of the spec scenario: stock 5, unit price 1000. -/
def prodA : Product :=
  { id := 1, name := "A", sku := "SKU-A", unit_price_cents := 1000,
    quantity_available := 5, reorder_level := 10 }

/-- Second fixture product: stock 2. -/
def prodB : Product :=
  { id := 2, name := "B", sku := "SKU-B", unit_price_cents := 500,
    quantity_available := 2, reorder_level := 3 }

/-- Store holding only product A. -/
def scenarioState : State :=
  { products := [prodA], sales := [], sale_items := [], next_sale_id := 1, now := 0 }

/-- The spec scenario request: one item, product A, quantity 3. -/
def scenarioReq : SaleCreate := { items := [⟨1, 3⟩] }

/-- The sale the scenario produces. -/
def scenarioSale : Sale :=
  { id := 1, subtotal_cents := 3000, tax_cents := 240, total_cents := 3240, created_at := 0 }

/-- The store after the scenario: product A at stock 2, the sale and its
line persisted. -/
def scenarioStateAfter : State :=
  { products := [{ prodA with quantity_available := 2 }],
    sales := [scenarioSale],
    sale_items := [⟨1, 1, 1000, 3, 3000⟩],
    next_sale_id := 2, now := 0 }

/-- Request referencing product A twice, quantity 3 each, against stock 5. -/
def dupReq : SaleCreate := { items := [⟨1, 3⟩, ⟨1, 3⟩] }

/-- The sale the duplicate-item request produces. -/
def dupSale : Sale :=
  { id := 1, subtotal_cents := 6000, tax_cents := 480, total_cents := 6480, created_at := 0 }

/-- The store after the duplicate-item request: stock driven to -1. -/
def dupStateAfter : State :=
  { products := [{ prodA with quantity_available := -1 }],
    sales := [dupSale],
    sale_items := [⟨1, 1, 1000, 3, 3000⟩, ⟨1, 1, 1000, 3, 3000⟩],
    next_sale_id := 2, now := 0 }

/-- A product priced so that one unit makes the subtotal hit the
float/floor divergence. -/
def prodXL : Product :=
  { id := 2, name := "BulkContract", sku := "SKU-XL",
    unit_price_cents := 5277730596919637, quantity_available := 1, reorder_level := 10 }

/-- Store holding only the divergence-priced product. -/
def taxState : State :=
  { products := [prodXL], sales := [], sale_items := [], next_sale_id := 1, now := 0 }

/-- Request for one unit of the divergence-priced product. -/
def taxReq : SaleCreate := { items := [⟨2, 1⟩] }

/-- The sale the divergence request produces: its tax exceeds
`floor(subtotal * 8 / 100)` by one cent. -/
def taxSale : Sale :=
  { id := 1, subtotal_cents := 5277730596919637, tax_cents := 422218447753571,
    total_cents := 5699949044673208, created_at := 0 }

/-- The store after the divergence request. -/
def taxStateAfter : State :=
  { products := [{ prodXL with quantity_available := 0 }],
    sales := [taxSale],
    sale_items := [⟨1, 2, 5277730596919637, 1, 5277730596919637⟩],
    next_sale_id := 2, now := 0 }

/-- Store with products A and B. -/
def twoProductState : State :=
  { products := [prodA, prodB], sales := [], sale_items := [],
    next_sale_id := 1, now := 0 }

/-- A request whose first item has quantity 0 (product A) while its
second item requests more of product B than is available. -/
def mixedBadReq : SaleCreate := { items := [⟨1, 0⟩, ⟨2, 10⟩] }

/-- A request whose first item passes and whose second item requests
more of product B than is available. -/
def insufficientReq : SaleCreate := { items := [⟨1, 2⟩, ⟨2, 10⟩] }

/-- Store with three sales on days 0, 1 and 3, and one referenced and
one unreferenced product. -/
def reportState : State :=
  { products := [prodA, prodB],
    sales := [⟨1, none, 1000, 80, 1080, 100⟩,
              ⟨2, none, 2000, 160, 2160, 86400000005⟩,
              ⟨3, none, 500, 40, 540, 259200000000⟩],
    sale_items := [⟨1, 1, 1000, 1, 1000⟩],
    next_sale_id := 4, now := 259200000001 }

/-- Partial-update request touching exactly two fields. -/
def updFixture : ProductUpdate :=
  { unit_price_cents := some 1200, quantity_available := some 7 }

/-- Product A after `updFixture` is applied. -/
def prodAUpdated : Product :=
  { prodA with unit_price_cents := 1200, quantity_available := 7 }

/-- The two-product store after `updFixture` is applied to product A. -/
def updatedState : State :=
  { twoProductState with products := [prodAUpdated, prodB] }

/-! ### Helper lemmas: the binary64 rounding model -/

theorem log2fuel_eq (fuel n : Nat) (h : n ≤ fuel) : log2fuel fuel n = Nat.log2 n := by
  induction fuel generalizing n with
  | zero =>
    have hn : n = 0 := by omega
    subst hn
    rw [Nat.log2]
    rfl
  | succ fuel ih =>
    show (if n ≤ 1 then 0 else log2fuel fuel (n / 2) + 1) = Nat.log2 n
    by_cases h1 : n ≤ 1
    · rw [if_pos h1, Nat.log2, if_neg (by omega)]
    · rw [if_neg h1, ih (n / 2) (by omega)]
      conv_rhs => rw [Nat.log2]
      rw [if_pos (by omega)]

theorem log2spec_eq (n : Nat) : log2spec n = Nat.log2 n :=
  log2fuel_eq n n le_rfl

theorem rne_ge_div (p shift : Nat) : p / 2 ^ shift ≤ rne p shift := by
  unfold rne
  by_cases hs : shift = 0
  · rw [if_pos hs, hs]
    simp
  rw [if_neg hs]
  by_cases hb1 : 2 ^ (shift - 1) < p % 2 ^ shift
  · rw [if_pos hb1]; omega
  rw [if_neg hb1]
  by_cases hb2 : p % 2 ^ shift < 2 ^ (shift - 1)
  · rw [if_pos hb2]
  rw [if_neg hb2]
  by_cases hb3 : (p / 2 ^ shift) % 2 = 0
  · rw [if_pos hb3]
  · rw [if_neg hb3]; omega

theorem rne_le (p shift : Nat) (hs : shift ≠ 0) :
    rne p shift * 2 ^ shift ≤ p + 2 ^ (shift - 1) := by
  have hpos : 0 < 2 ^ shift := Nat.pow_pos (by norm_num)
  have hqr : p / 2 ^ shift * 2 ^ shift + p % 2 ^ shift = p := by
    have h := Nat.div_add_mod p (2 ^ shift)
    rw [Nat.mul_comm] at h
    exact h
  have h2 : 2 ^ shift = 2 * 2 ^ (shift - 1) := by
    conv_lhs => rw [show shift = shift - 1 + 1 from by omega]
    rw [pow_succ]
    ring
  have hr : p % 2 ^ shift < 2 ^ shift := Nat.mod_lt _ hpos
  unfold rne
  rw [if_neg hs]
  by_cases hb1 : 2 ^ (shift - 1) < p % 2 ^ shift
  · rw [if_pos hb1, add_one_mul]
    set A := p / 2 ^ shift * 2 ^ shift with hA
    omega
  rw [if_neg hb1]
  by_cases hb2 : p % 2 ^ shift < 2 ^ (shift - 1)
  · rw [if_pos hb2]
    set A := p / 2 ^ shift * 2 ^ shift with hA
    omega
  rw [if_neg hb2]
  by_cases hb3 : (p / 2 ^ shift) % 2 = 0
  · rw [if_pos hb3]
    set A := p / 2 ^ shift * 2 ^ shift with hA
    omega
  · rw [if_neg hb3, add_one_mul]
    set A := p / 2 ^ shift * 2 ^ shift with hA
    omega

theorem round53_small (n : Nat) (h : n < 2 ^ 53) : round53 n = n := by
  rcases Nat.eq_zero_or_pos n with h0 | hpos
  · subst h0; rfl
  have hlog : Nat.log2 n - 52 = 0 := by
    have := (Nat.log2_lt (by omega)).mpr h
    omega
  unfold round53
  rw [log2spec_eq, hlog]
  unfold rne
  simp

set_option maxRecDepth 100000 in
theorem floatTaxNat_zero : floatTaxNat 0 = 0 := by decide

set_option maxRecDepth 100000 in
theorem floatTaxNat_one : floatTaxNat 1 = 0 := by decide

/-- Below 3·10^15 the binary64 evaluation of `int(s * 0.08)` agrees with
the exact `floor(s * 8 / 100)`: the combined error (the excess of the
double 0.08 over 2/25, plus half an ulp) stays below the minimal
distance 1/25 of an exact non-integer value to the next integer, and
rounding never crosses an exactly-representable integer downward. -/
theorem floatTaxNat_eq_floor (s : Nat) (hb : s ≤ 3000000000000000) :
    floatTaxNat s = s * 8 / 100 := by
  rcases Nat.lt_or_ge s 2 with hs2 | hs2
  · interval_cases s
    · exact floatTaxNat_zero
    · exact floatTaxNat_one
  have h53 : round53 s = s := round53_small s (lt_of_le_of_lt hb (by norm_num))
  show rne (round53 s * TAXRATE_NUM) (log2spec (round53 s * TAXRATE_NUM) - 52) *
      2 ^ (log2spec (round53 s * TAXRATE_NUM) - 52) / 2 ^ 56 = s * 8 / 100
  rw [h53, log2spec_eq]
  set p := s * TAXRATE_NUM with hp
  have hp25 : 25 * p = s * 144115188075855875 := by
    rw [hp, ← Nat.mul_assoc, Nat.mul_comm 25 s, Nat.mul_assoc]
    norm_num [TAXRATE_NUM]
  have hplow : 2 ^ 53 < p := by
    calc (2 : Nat) ^ 53 < 2 * TAXRATE_NUM := by norm_num [TAXRATE_NUM]
      _ ≤ s * TAXRATE_NUM := Nat.mul_le_mul_right _ hs2
  have hpup : p < 2 ^ 104 := by
    calc p ≤ 3000000000000000 * TAXRATE_NUM := Nat.mul_le_mul_right _ hb
      _ < 2 ^ 104 := by norm_num [TAXRATE_NUM]
  set k := Nat.log2 p with hk0
  have hk1 : 2 ^ k ≤ p := Nat.log2_self_le (by omega)
  have hk2 : p < 2 ^ (k + 1) := Nat.lt_log2_self
  have hk53 : 53 ≤ k := by
    by_contra hcon
    push_neg at hcon
    have : p < 2 ^ 53 :=
      lt_of_lt_of_le hk2 (Nat.pow_le_pow_right (by norm_num) (by omega))
    omega
  have hk103 : k ≤ 103 := by
    by_contra hcon
    push_neg at hcon
    have : (2 : Nat) ^ 104 ≤ 2 ^ k := Nat.pow_le_pow_right (by norm_num) (by omega)
    omega
  have hshne : k - 52 ≠ 0 := by omega
  have hpow : 0 < (2 : Nat) ^ (k - 52) := Nat.pow_pos (by norm_num)
  -- the exact quotient
  have hdm := Nat.div_add_mod (s * 8) 100
  have hmod := Nat.mod_lt (s * 8) (show 0 < 100 by norm_num)
  set qa := s * 8 / 100 with hqa
  -- lower bound: qa * 2^56 ≤ p
  have h25qa : 25 * qa ≤ 2 * s := by omega
  have hlow : qa * 2 ^ 56 ≤ p := by
    have hchain : 25 * (qa * 2 ^ 56) ≤ 25 * p := by
      calc 25 * (qa * 2 ^ 56) = (25 * qa) * 2 ^ 56 := by ring
        _ ≤ (2 * s) * 2 ^ 56 := Nat.mul_le_mul_right _ h25qa
        _ = s * (2 ^ 57) := by ring
        _ ≤ s * 144115188075855875 := Nat.mul_le_mul_left s (by norm_num)
        _ = 25 * p := hp25.symm
    exact Nat.le_of_mul_le_mul_left hchain (by norm_num)
  have hsplit : (2 : Nat) ^ (56 - (k - 52)) * 2 ^ (k - 52) = 2 ^ 56 := by
    rw [← pow_add]
    congr 1
    omega
  have hdivlow : qa * 2 ^ (56 - (k - 52)) ≤ p / 2 ^ (k - 52) := by
    rw [Nat.le_div_iff_mul_le hpow]
    calc qa * 2 ^ (56 - (k - 52)) * 2 ^ (k - 52)
        = qa * (2 ^ (56 - (k - 52)) * 2 ^ (k - 52)) := by ring
      _ = qa * 2 ^ 56 := by rw [hsplit]
      _ ≤ p := hlow
  have hlowv : qa * 2 ^ 56 ≤ rne p (k - 52) * 2 ^ (k - 52) := by
    calc qa * 2 ^ 56 = qa * 2 ^ (56 - (k - 52)) * 2 ^ (k - 52) := by
          rw [mul_assoc, hsplit]
      _ ≤ p / 2 ^ (k - 52) * 2 ^ (k - 52) := Nat.mul_le_mul_right _ hdivlow
      _ ≤ rne p (k - 52) * 2 ^ (k - 52) :=
          Nat.mul_le_mul_right _ (rne_ge_div p (k - 52))
  -- upper bound
  have hup1 : rne p (k - 52) * 2 ^ (k - 52) ≤ p + 2 ^ (k - 52 - 1) :=
    rne_le p (k - 52) hshne
  have hHbound : 2 ^ (k - 52 - 1) * 2 ^ 53 ≤ p := by
    calc 2 ^ (k - 52 - 1) * 2 ^ 53 = 2 ^ k := by
          rw [← pow_add]
          congr 1
          omega
      _ ≤ p := hk1
  have hfinal : p + 2 ^ (k - 52 - 1) < (qa + 1) * 2 ^ 56 := by
    have e53 : (2 : Nat) ^ 53 = 9007199254740992 := by norm_num
    have e56 : (2 : Nat) ^ 56 = 72057594037927936 := by norm_num
    rw [e56]
    rw [e53] at hHbound
    omega
  exact Nat.div_eq_of_lt_le hlowv (lt_of_le_of_lt hup1 hfinal)

/-! ### Helper lemmas: the `create_sale` validation loop -/

theorem processItems_cons_error (st : State) (item : SaleItemBase) (rest : List SaleItemBase)
    (e : HTTPError) (h : itemCheckError st item = some e) :
    processItems st (item :: rest) = .error e := by
  unfold itemCheckError at h
  unfold processItems
  by_cases h1 : item.quantity ≤ 0
  · simp only [if_pos h1] at h ⊢
    injection h with h2
    rw [h2]
  · simp only [if_neg h1] at h ⊢
    cases hf : findProduct st item.product_id with
    | none =>
      simp only [hf] at h ⊢
      injection h with h2
      rw [h2]
    | some product =>
      simp only [hf] at h ⊢
      by_cases h2 : product.quantity_available < item.quantity
      · simp only [if_pos h2] at h ⊢
        injection h with h3
        rw [h3]
      · simp only [if_neg h2] at h
        cases h

theorem processItems_cons_pass_error (st : State) (x : SaleItemBase)
    (hx : itemPasses st x = true) (rest : List SaleItemBase) (e : HTTPError)
    (hrest : processItems st rest = .error e) :
    processItems st (x :: rest) = .error e := by
  unfold itemPasses itemCheckError at hx
  unfold processItems
  by_cases h1 : x.quantity ≤ 0
  · simp only [if_pos h1] at hx
    simp at hx
  · simp only [if_neg h1] at hx ⊢
    cases hf : findProduct st x.product_id with
    | none =>
      simp only [hf] at hx
      simp at hx
    | some product =>
      simp only [hf] at hx ⊢
      by_cases h2 : product.quantity_available < x.quantity
      · simp only [if_pos h2] at hx
        simp at hx
      · simp only [if_neg h2]
        rw [hrest]

theorem processItems_append_error (st : State) (pre : List SaleItemBase)
    (hpre : ∀ x ∈ pre, itemPasses st x = true) (item : SaleItemBase)
    (rest : List SaleItemBase) (e : HTTPError) (h : itemCheckError st item = some e) :
    processItems st (pre ++ item :: rest) = .error e := by
  induction pre with
  | nil => simpa using processItems_cons_error st item rest e h
  | cons x pre ih =>
    have hx : itemPasses st x = true := hpre x (by simp)
    have hrec : processItems st (pre ++ item :: rest) = .error e :=
      ih (fun y hy => hpre y (by simp [hy]))
    simpa using processItems_cons_pass_error st x hx _ e hrec

theorem processItems_ok_subtotal (st : State) : ∀ (items : List SaleItemBase)
    (u : List (Nat × Int)) (l : List LineItemData) (sub : Int),
    processItems st items = .ok (u, l, sub) → sub = subtotalSpec st items := by
  intro items
  induction items with
  | nil =>
    intro u l sub h
    unfold processItems at h
    simp only [Except.ok.injEq, Prod.mk.injEq] at h
    simp [subtotalSpec, ← h.2.2]
  | cons item rest ih =>
    intro u l sub h
    unfold processItems at h
    by_cases h1 : item.quantity ≤ 0
    · simp only [if_pos h1] at h
      simp at h
    · simp only [if_neg h1] at h
      cases hf : findProduct st item.product_id with
      | none =>
        simp only [hf] at h
        simp at h
      | some product =>
        simp only [hf] at h
        by_cases h2 : product.quantity_available < item.quantity
        · simp only [if_pos h2] at h
          simp at h
        · simp only [if_neg h2] at h
          cases hrec : processItems st rest with
          | error e =>
            rw [hrec] at h
            simp at h
          | ok t =>
            obtain ⟨u', l', sub'⟩ := t
            rw [hrec] at h
            simp only [Except.ok.injEq, Prod.mk.injEq] at h
            obtain ⟨hu, hl, hsub⟩ := h
            have hrest := ih u' l' sub' hrec
            rw [← hsub, hrest]
            simp [subtotalSpec, priceOf, hf]

theorem createSale_ok_shape (st : State) (req : SaleCreate) (sale : Sale) (st' : State)
    (h : createSale st req = .ok (sale, st')) :
    ∃ u l, processItems st req.items = .ok (u, l, sale.subtotal_cents) ∧
      sale.tax_cents = intTimesTaxRate sale.subtotal_cents ∧
      sale.total_cents = sale.subtotal_cents + sale.tax_cents := by
  unfold createSale at h
  by_cases he : req.items.isEmpty
  · simp only [if_pos he] at h
    simp at h
  · simp only [if_neg he] at h
    cases hpi : processItems st req.items with
    | error e =>
      rw [hpi] at h
      simp at h
    | ok t =>
      obtain ⟨u, l, sub⟩ := t
      rw [hpi] at h
      simp only [Except.ok.injEq, Prod.mk.injEq] at h
      obtain ⟨hsale, hst⟩ := h
      refine ⟨u, l, ?_, ?_, ?_⟩
      · rw [← hsale]
      · rw [← hsale]
      · rw [← hsale]

theorem createNewSale_error (st : State) (req : SaleCreate) (e : HTTPError)
    (h : createSale st req = .error e) : createNewSale st req = (.error e, st) := by
  unfold createNewSale
  rw [h]

theorem createSale_error_of_items (st : State) (req : SaleCreate) (e : HTTPError)
    (hne : req.items ≠ []) (h : processItems st req.items = .error e) :
    createSale st req = .error e := by
  unfold createSale
  rw [if_neg (by simpa using hne), h]

theorem createNewSale_first_error (st : State) (cust : Option Nat)
    (pre : List SaleItemBase) (item : SaleItemBase) (rest : List SaleItemBase)
    (e : HTTPError) (hpre : ∀ x ∈ pre, itemPasses st x = true)
    (h : itemCheckError st item = some e) :
    createNewSale st ⟨cust, pre ++ item :: rest⟩ = (.error e, st) := by
  apply createNewSale_error
  apply createSale_error_of_items
  · simp
  · exact processItems_append_error st pre hpre item rest e h

/-! ### Helper lemmas: orderings, listings, deletion, date ranges -/

theorem charListLe_total : ∀ xs ys : List Char,
    charListLe xs ys = true ∨ charListLe ys xs = true := by
  intro xs
  induction xs with
  | nil => intro ys; left; rfl
  | cons a as ih =>
    intro ys
    cases ys with
    | nil => right; rfl
    | cons b bs =>
      unfold charListLe
      rcases Nat.lt_trichotomy a.toNat b.toNat with h | h | h
      · left; simp [h]
      · have h1 : ¬a.toNat < b.toNat := by omega
        have h2 : ¬b.toNat < a.toNat := by omega
        simp only [if_neg h1, if_neg h2]
        exact ih bs
      · right; simp [h]

theorem charListLe_trans : ∀ xs ys zs : List Char,
    charListLe xs ys = true → charListLe ys zs = true → charListLe xs zs = true := by
  intro xs
  induction xs with
  | nil => intro ys zs _ _; rfl
  | cons a as ih =>
    intro ys zs h1 h2
    cases ys with
    | nil =>
      unfold charListLe at h1
      simp at h1
    | cons b bs =>
      cases zs with
      | nil =>
        unfold charListLe at h2
        simp at h2
      | cons c cs =>
        unfold charListLe at h1 h2 ⊢
        by_cases hab : a.toNat < b.toNat
        · by_cases hbc : b.toNat < c.toNat
          · simp [show a.toNat < c.toNat from by omega]
          · by_cases hcb : c.toNat < b.toNat
            · simp only [if_neg hbc, if_pos hcb] at h2
              simp at h2
            · simp [show a.toNat < c.toNat from by omega]
        · by_cases hba : b.toNat < a.toNat
          · simp only [if_neg hab, if_pos hba] at h1
            simp at h1
          · simp only [if_neg hab, if_neg hba] at h1
            by_cases hbc : b.toNat < c.toNat
            · simp [show a.toNat < c.toNat from by omega]
            · by_cases hcb : c.toNat < b.toNat
              · simp only [if_neg hbc, if_pos hcb] at h2
                simp at h2
              · simp only [if_neg hbc, if_neg hcb] at h2
                have hac1 : ¬a.toNat < c.toNat := by omega
                have hac2 : ¬c.toNat < a.toNat := by omega
                simp only [if_neg hac1, if_neg hac2]
                exact ih bs cs h1 h2

theorem nameLe_isTotal : ∀ a b : Product, nameLe a b ∨ nameLe b a := fun a b =>
  charListLe_total a.name.data b.name.data

theorem nameLe_isTrans : ∀ a b c : Product, nameLe a b → nameLe b c → nameLe a c :=
  fun a b c => charListLe_trans a.name.data b.name.data c.name.data

theorem getProducts_subset (st : State) (skip limit : Nat) :
    ∀ q ∈ getProducts st skip limit, q ∈ st.products := by
  intro q hq
  unfold getProducts at hq
  exact (List.perm_insertionSort nameLe st.products).subset
    (List.drop_subset _ _ (List.take_subset _ _ hq))

theorem eraseP_id_not_mem (pid : Nat) : ∀ l : List Product,
    (l.map Product.id).Nodup →
    ∀ q ∈ l.eraseP (fun p => p.id = pid), q.id ≠ pid := by
  intro l
  induction l with
  | nil =>
    intro _ q hq
    simp [List.eraseP] at hq
  | cons x xs ih =>
    intro hnd q hq
    rw [List.map_cons, List.nodup_cons] at hnd
    obtain ⟨hx, hxs⟩ := hnd
    by_cases hxp : x.id = pid
    · rw [List.eraseP_cons_of_pos (by simp [hxp])] at hq
      intro hqid
      exact hx (by rw [hxp, ← hqid]; exact List.mem_map_of_mem _ hq)
    · rw [List.eraseP_cons_of_neg (by simp [hxp])] at hq
      rcases List.mem_cons.mp hq with h | h
      · rw [h]; exact hxp
      · exact ih hxs q h

theorem inRange_iff (fd td t : Nat) :
    (fd * US_PER_DAY ≤ t ∧ t ≤ td * US_PER_DAY + (US_PER_DAY - 1)) ↔
      (fd ≤ t / US_PER_DAY ∧ t / US_PER_DAY ≤ td) := by
  have hpos : 0 < US_PER_DAY := by norm_num [US_PER_DAY]
  have hsucc : (td + 1) * US_PER_DAY = td * US_PER_DAY + US_PER_DAY := by ring
  constructor
  · rintro ⟨h1, h2⟩
    refine ⟨(Nat.le_div_iff_mul_le hpos).mpr h1, ?_⟩
    have hlt : t < (td + 1) * US_PER_DAY := by omega
    have := (Nat.div_lt_iff_lt_mul hpos).mpr hlt
    omega
  · rintro ⟨h1, h2⟩
    refine ⟨(Nat.le_div_iff_mul_le hpos).mp h1, ?_⟩
    have h3 : t / US_PER_DAY < td + 1 := by omega
    have := (Nat.div_lt_iff_lt_mul hpos).mp h3
    omega

theorem fdiv_ofNat (m n : Nat) : Int.fdiv (m : Int) (n : Int) = ((m / n : Nat) : Int) := by
  cases m with
  | zero => simp [Int.fdiv]
  | succ m => rfl

theorem getSalesSummary_eq (st : State) (fd td : Nat) :
    getSalesSummary st fd td =
      { from_date := fd, to_date := td,
        total_revenue_cents :=
          ((st.sales.filter fun s => decide (saleInDayRange fd td s)).map
            (fun s => s.total_cents)).sum,
        transaction_count :=
          (st.sales.filter fun s => decide (saleInDayRange fd td s)).length,
        average_order_value_cents :=
          if 0 < (st.sales.filter fun s => decide (saleInDayRange fd td s)).length then
            Int.fdiv
              ((st.sales.filter fun s => decide (saleInDayRange fd td s)).map
                (fun s => s.total_cents)).sum
              ((st.sales.filter fun s => decide (saleInDayRange fd td s)).length : Int)
          else 0 } := by
  have hfilter :
      (st.sales.filter fun s =>
        fd * US_PER_DAY ≤ s.created_at && s.created_at ≤ td * US_PER_DAY + (US_PER_DAY - 1))
        = st.sales.filter fun s => decide (saleInDayRange fd td s) := by
    apply List.filter_congr
    intro s _
    rw [← Bool.decide_and]
    exact decide_eq_decide.mpr (by unfold saleInDayRange; exact inRange_iff fd td s.created_at)
  simp only [getSalesSummary]
  rw [hfilter]

/-! ### Claim theorems -/

/-- C1: every successful `CreateSale` returns a sale whose
`subtotal_cents` is the sum over the input items of the referenced
product's unit price at call time times quantity, and whose
`total_cents` is `subtotal_cents + tax_cents`. -/
theorem c1_create_sale_totals (st : State) (req : SaleCreate) (sale : Sale) (st' : State)
    (h : createSale st req = .ok (sale, st')) :
    sale.subtotal_cents = subtotalSpec st req.items ∧
    sale.total_cents = sale.subtotal_cents + sale.tax_cents := by
  obtain ⟨u, l, hpi, _, htot⟩ := createSale_ok_shape st req sale st' h
  exact ⟨processItems_ok_subtotal st req.items u l _ hpi, htot⟩

set_option maxRecDepth 100000 in
/-- C1 witness: the spec scenario — product A with stock 5 and unit
price 1000, one item of quantity 3 — yields subtotal 3000, tax 240,
total 3240, and stock 2. -/
theorem c1_witness :
    createSale scenarioState scenarioReq = .ok (scenarioSale, scenarioStateAfter)
    ∧ scenarioSale.subtotal_cents = 3000
    ∧ scenarioSale.tax_cents = 240
    ∧ scenarioSale.total_cents = 3240
    ∧ scenarioStateAfter.products.map Product.quantity_available = [2]
    ∧ scenarioSale.subtotal_cents = subtotalSpec scenarioState scenarioReq.items
    ∧ scenarioSale.total_cents = scenarioSale.subtotal_cents + scenarioSale.tax_cents := by
  refine ⟨by decide, by decide, by decide, by decide, by decide, ?_, ?_⟩
  · exact (c1_create_sale_totals scenarioState scenarioReq scenarioSale scenarioStateAfter
      (by decide)).1
  · exact (c1_create_sale_totals scenarioState scenarioReq scenarioSale scenarioStateAfter
      (by decide)).2

set_option maxRecDepth 100000 in
/-- C2: the stock-nonnegativity invariant fails — a single `CreateSale`
whose item list references the same product twice (quantity 3 each,
stock 5) succeeds, is committed, and leaves `quantity_available = -1`. -/
theorem c2_duplicate_items_oversell :
    createNewSale scenarioState dupReq = (.ok dupSale, dupStateAfter)
    ∧ dupStateAfter.products.map Product.quantity_available = [-1]
    ∧ ¬(0 ≤ (-1 : Int)) := by
  exact ⟨by decide, by decide, by decide⟩

set_option maxRecDepth 100000 in
/-- C3 counterexample: a successful `CreateSale` with subtotal
5277730596919637 produces `tax_cents = 422218447753571`, one more than
`floor(subtotal * 8 / 100) = 422218447753570`, so the tax is not the
exact rational floor for every non-negative subtotal. -/
theorem c3_counterexample :
    createSale taxState taxReq = .ok (taxSale, taxStateAfter)
    ∧ taxSale.subtotal_cents = 5277730596919637
    ∧ 0 ≤ taxSale.subtotal_cents
    ∧ taxSale.tax_cents = 422218447753571
    ∧ Int.fdiv (taxSale.subtotal_cents * 8) 100 = 422218447753570
    ∧ taxSale.tax_cents ≠ Int.fdiv (taxSale.subtotal_cents * 8) 100 := by
  exact ⟨by decide, by decide, by decide, by decide, by decide, by decide⟩

/-- C3 (amended): for every successful `CreateSale` whose subtotal is
non-negative and at most 3·10^15 cents, `tax_cents` equals the exact
integer floor of `subtotal_cents × 8 / 100`; beyond that bound the
binary64 evaluation of `int(subtotal * 0.08)` can differ from the exact
floor. -/
theorem c3_tax_is_floor_up_to_3e15 (st : State) (req : SaleCreate) (sale : Sale) (st' : State)
    (h : createSale st req = .ok (sale, st'))
    (h0 : 0 ≤ sale.subtotal_cents) (hb : sale.subtotal_cents ≤ 3000000000000000) :
    sale.tax_cents = Int.fdiv (sale.subtotal_cents * 8) 100 := by
  obtain ⟨u, l, _, htax, _⟩ := createSale_ok_shape st req sale st' h
  rw [htax]
  unfold intTimesTaxRate
  rw [if_pos h0]
  obtain ⟨n, hn⟩ := Int.eq_ofNat_of_zero_le h0
  rw [hn]
  have hb' : (n : Int) ≤ 3000000000000000 := hn ▸ hb
  have hbn : n ≤ 3000000000000000 := by exact_mod_cast hb'
  rw [show ((n : Int)).toNat = n from Int.toNat_natCast n]
  rw [floatTaxNat_eq_floor n hbn]
  rw [show ((n : Int) * 8) = ((n * 8 : Nat) : Int) from by push_cast; ring]
  rw [show (100 : Int) = ((100 : Nat) : Int) from rfl]
  rw [fdiv_ofNat]

set_option maxRecDepth 100000 in
/-- C3 witness: the amended bound applied at the spec scenario, whose
subtotal 3000 is within range: tax 240 is the exact floor. -/
theorem c3_witness :
    scenarioSale.tax_cents = Int.fdiv (scenarioSale.subtotal_cents * 8) 100 :=
  c3_tax_is_floor_up_to_3e15 scenarioState scenarioReq scenarioSale scenarioStateAfter
    (by decide) (by decide) (by decide)

set_option maxRecDepth 100000 in
/-- C4 counterexample: a call whose second item requests 10 of product B
(stock 2) — so some item's requested quantity exceeds availability —
fails with the invalid-quantity error for its first item (quantity 0)
rather than with the insufficient-stock error for product B. -/
theorem c4_counterexample :
    (mixedBadReq.items.any fun it =>
      match findProduct twoProductState it.product_id with
      | some p => decide (p.quantity_available < it.quantity)
      | none => false) = true
    ∧ createNewSale twoProductState mixedBadReq = (.error ⟨400, invalidQtyDetail 1⟩, twoProductState)
    ∧ HTTPError.mk 400 (invalidQtyDetail 1)
        ≠ ⟨400, insufficientDetail prodB.name prodB.sku 10 prodB.quantity_available⟩ := by
  exact ⟨by decide, by decide, by decide⟩

/-- C4 (amended): when every earlier item passes validation and an item
with positive quantity references an existing product whose availability
is below the requested quantity, `CreateSale` fails with the
insufficient-stock error carrying that product's name, SKU, requested
and available amounts, and the store is left unchanged (no sale, no
sale items, no stock change). -/
theorem c4_insufficient_stock (st : State) (cust : Option Nat) (pre : List SaleItemBase)
    (item : SaleItemBase) (rest : List SaleItemBase) (p : Product)
    (hpre : ∀ x ∈ pre, itemPasses st x = true)
    (hq : 0 < item.quantity)
    (hfind : findProduct st item.product_id = some p)
    (hstock : p.quantity_available < item.quantity) :
    createNewSale st ⟨cust, pre ++ item :: rest⟩ =
      (.error ⟨400, insufficientDetail p.name p.sku item.quantity p.quantity_available⟩, st) := by
  apply createNewSale_first_error st cust pre item rest _ hpre
  unfold itemCheckError
  rw [if_neg (by omega)]
  simp only [hfind]
  rw [if_pos hstock]

set_option maxRecDepth 100000 in
/-- C4 witness: requesting 2 of product A (passes) then 10 of product B
(stock 2) fails with the insufficient-stock error for product B and the
store is unchanged. -/
theorem c4_witness :
    createNewSale twoProductState insufficientReq =
      (.error ⟨400, insufficientDetail "B" "SKU-B" 10 2⟩, twoProductState) :=
  c4_insufficient_stock twoProductState none [⟨1, 2⟩] ⟨2, 10⟩ [] prodB
    (by decide) (by decide) (by decide) (by decide)

/-- C5: an empty item list fails with the invalid-request error and the
store is unchanged; otherwise, with every earlier item passing, a
non-positive quantity fails with the invalid-request error naming the
product reference, and a missing product fails with the not-found error
naming the missing id — each with the store unchanged. -/
theorem c5_create_sale_validation :
    (∀ (st : State) (cust : Option Nat),
      createNewSale st ⟨cust, []⟩ =
        (.error ⟨400, "Sale must contain at least one item."⟩, st))
    ∧ (∀ (st : State) (cust : Option Nat) (pre : List SaleItemBase)
        (item : SaleItemBase) (rest : List SaleItemBase),
        (∀ x ∈ pre, itemPasses st x = true) → item.quantity ≤ 0 →
        createNewSale st ⟨cust, pre ++ item :: rest⟩ =
          (.error ⟨400, invalidQtyDetail item.product_id⟩, st))
    ∧ (∀ (st : State) (cust : Option Nat) (pre : List SaleItemBase)
        (item : SaleItemBase) (rest : List SaleItemBase),
        (∀ x ∈ pre, itemPasses st x = true) → 0 < item.quantity →
        findProduct st item.product_id = none →
        createNewSale st ⟨cust, pre ++ item :: rest⟩ =
          (.error ⟨404, notFoundDetail item.product_id⟩, st)) := by
  refine ⟨?_, ?_, ?_⟩
  · intro st cust
    apply createNewSale_error
    rfl
  · intro st cust pre item rest hpre hq
    apply createNewSale_first_error st cust pre item rest _ hpre
    unfold itemCheckError
    rw [if_pos hq]
  · intro st cust pre item rest hpre hq hfind
    apply createNewSale_first_error st cust pre item rest _ hpre
    unfold itemCheckError
    rw [if_neg (by omega)]
    simp only [hfind]

set_option maxRecDepth 100000 in
/-- C5 witness: against the two-product store, the empty list, a zero
quantity on the second item, and an unknown product id 99 each fail with
the claimed error and leave the store unchanged. -/
theorem c5_witness :
    createNewSale twoProductState { items := [] } =
      (.error ⟨400, "Sale must contain at least one item."⟩, twoProductState)
    ∧ createNewSale twoProductState { items := [⟨1, 2⟩, ⟨2, 0⟩] } =
      (.error ⟨400, invalidQtyDetail 2⟩, twoProductState)
    ∧ createNewSale twoProductState { items := [⟨1, 2⟩, ⟨99, 1⟩] } =
      (.error ⟨404, notFoundDetail 99⟩, twoProductState) :=
  ⟨c5_create_sale_validation.1 twoProductState none,
   c5_create_sale_validation.2.1 twoProductState none [⟨1, 2⟩] ⟨2, 0⟩ []
     (by decide) (by decide),
   c5_create_sale_validation.2.2 twoProductState none [⟨1, 2⟩] ⟨99, 1⟩ []
     (by decide) (by decide) (by decide)⟩

/-- C6: `Summarize` returns the sum of `total_cents` over the sales
whose creation timestamp falls on a day inside the inclusive range, the
count of those sales, and their floor-divided average; an empty range
yields exactly zeros with no division. -/
theorem c6_sales_summary (st : State) (fd td : Nat) :
    (getSalesSummary st fd td).total_revenue_cents
        = ((st.sales.filter fun s => decide (saleInDayRange fd td s)).map
            (fun s => s.total_cents)).sum
    ∧ (getSalesSummary st fd td).transaction_count
        = (st.sales.filter fun s => decide (saleInDayRange fd td s)).length
    ∧ (0 < (getSalesSummary st fd td).transaction_count →
        (getSalesSummary st fd td).average_order_value_cents
          = Int.fdiv (getSalesSummary st fd td).total_revenue_cents
              ((getSalesSummary st fd td).transaction_count : Int))
    ∧ ((st.sales.filter fun s => decide (saleInDayRange fd td s)) = [] →
        getSalesSummary st fd td = ⟨fd, td, 0, 0, 0⟩) := by
  rw [getSalesSummary_eq st fd td]
  refine ⟨rfl, rfl, ?_, ?_⟩
  · intro hpos
    dsimp only at hpos ⊢
    rw [if_pos hpos]
  · intro hemp
    rw [hemp]
    simp

set_option maxRecDepth 100000 in
/-- C6 witness: over a store with sales on days 0, 1 and 3, the range
[0,1] catches the first two sales and reports their floor-divided
average, and the empty range [5,6] reports exactly zeros. -/
theorem c6_witness :
    (getSalesSummary reportState 0 1).average_order_value_cents
      = Int.fdiv (getSalesSummary reportState 0 1).total_revenue_cents
          ((getSalesSummary reportState 0 1).transaction_count : Int)
    ∧ getSalesSummary reportState 5 6 = ⟨5, 6, 0, 0, 0⟩ :=
  ⟨(c6_sales_summary reportState 0 1).2.2.1 (by decide),
   (c6_sales_summary reportState 5 6).2.2.2 (by decide)⟩

/-- C7: `LowStock` with a threshold returns exactly the products with
`quantity_available ≤ threshold`, without one exactly the products with
`quantity_available ≤ reorder_level`, in both cases ordered ascending by
`quantity_available`. -/
theorem c7_low_stock_report (st : State) (t : Int) :
    List.Perm (getLowStockReport st (some t))
        (st.products.filter fun p => decide (p.quantity_available ≤ t))
    ∧ List.Perm (getLowStockReport st none)
        (st.products.filter fun p => decide (p.quantity_available ≤ p.reorder_level))
    ∧ List.Sorted qtyLe (getLowStockReport st (some t))
    ∧ List.Sorted qtyLe (getLowStockReport st none) := by
  haveI : IsTotal Product qtyLe :=
    ⟨fun a b => le_total a.quantity_available b.quantity_available⟩
  haveI : IsTrans Product qtyLe := ⟨fun _ _ _ h1 h2 => le_trans h1 h2⟩
  exact ⟨List.perm_insertionSort qtyLe _, List.perm_insertionSort qtyLe _,
    List.sorted_insertionSort qtyLe _, List.sorted_insertionSort qtyLe _⟩

/-- C8: deleting a product referenced by a sale item fails with the
conflict error and changes nothing; deleting an existing unreferenced
product succeeds, erases exactly that row, and (with unique ids) the
product appears in no subsequent listing; deleting a missing id fails
with the not-found error. -/
theorem c8_delete_product (st : State) (pid : Nat) :
    (∀ p, findProduct st pid = some p →
      (∃ si ∈ st.sale_items, si.product_id = pid) →
      deleteProductEndpoint st pid =
        (.error ⟨400, "Cannot delete product, it is associated with existing sales."⟩, st))
    ∧ (∀ p, findProduct st pid = some p →
      (∀ si ∈ st.sale_items, si.product_id ≠ pid) →
      deleteProductEndpoint st pid =
        (.ok (), { st with products := st.products.eraseP (fun q => q.id = pid) })
      ∧ ((st.products.map Product.id).Nodup →
        ∀ skip limit : Nat,
          ∀ q ∈ getProducts { st with products := st.products.eraseP (fun q => q.id = pid) }
              skip limit, q.id ≠ pid))
    ∧ (findProduct st pid = none →
      deleteProductEndpoint st pid = (.error ⟨404, "Product not found"⟩, st)) := by
  refine ⟨?_, ?_, ?_⟩
  · intro p hfind href
    have hsome : (st.sale_items.find? (fun si => si.product_id = pid)).isSome = true := by
      rw [List.find?_isSome]
      obtain ⟨si, hmem, hpid⟩ := href
      exact ⟨si, hmem, by simp [hpid]⟩
    unfold deleteProductEndpoint deleteProduct
    simp only [hfind]
    rw [if_pos hsome]
  · intro p hfind hnone
    have hnot : st.sale_items.find? (fun si => si.product_id = pid) = none := by
      rw [List.find?_eq_none]
      intro si hmem
      simp [hnone si hmem]
    constructor
    · unfold deleteProductEndpoint deleteProduct
      simp only [hfind]
      rw [if_neg (by rw [hnot]; simp)]
    · intro hnd skip limit q hq
      have hq' : q ∈ st.products.eraseP (fun q => q.id = pid) :=
        getProducts_subset _ skip limit q hq
      exact eraseP_id_not_mem pid st.products hnd q hq'
  · intro hfind
    unfold deleteProductEndpoint deleteProduct
    simp only [hfind]

set_option maxRecDepth 100000 in
/-- C8 witness: in a store where product 1 is referenced by a sale item
and product 2 is not, deleting 1 fails with the conflict error and
changes nothing, deleting 2 succeeds and erases it, and deleting the
absent id 99 fails with the not-found error. -/
theorem c8_witness :
    deleteProductEndpoint reportState 1 =
      (.error ⟨400, "Cannot delete product, it is associated with existing sales."⟩, reportState)
    ∧ deleteProductEndpoint reportState 2 =
      (.ok (), { reportState with
        products := reportState.products.eraseP (fun q => q.id = 2) })
    ∧ deleteProductEndpoint reportState 99 =
      (.error ⟨404, "Product not found"⟩, reportState) :=
  ⟨(c8_delete_product reportState 1).1 prodA (by decide) (by decide),
   ((c8_delete_product reportState 2).2.1 prodB (by decide) (by decide)).1,
   (c8_delete_product reportState 99).2.2 (by decide)⟩

/-- C9: a partial update of an existing product overwrites exactly the
fields present in the request, leaves every absent field unchanged,
never changes the product id, and never touches the stored sales or
sale items (the derived totals). -/
theorem c9_update_product (st : State) (pid : Nat) (upd : ProductUpdate)
    (p p' : Product) (st' : State)
    (hfind : findProduct st pid = some p)
    (hok : updateProduct st pid upd = .ok (p', st')) :
    (∀ v, upd.name = some v → p'.name = v)
    ∧ (upd.name = none → p'.name = p.name)
    ∧ (∀ v, upd.sku = some v → p'.sku = v)
    ∧ (upd.sku = none → p'.sku = p.sku)
    ∧ (∀ v, upd.unit_price_cents = some v → p'.unit_price_cents = v)
    ∧ (upd.unit_price_cents = none → p'.unit_price_cents = p.unit_price_cents)
    ∧ (∀ v, upd.quantity_available = some v → p'.quantity_available = v)
    ∧ (upd.quantity_available = none → p'.quantity_available = p.quantity_available)
    ∧ (∀ v, upd.reorder_level = some v → p'.reorder_level = v)
    ∧ (upd.reorder_level = none → p'.reorder_level = p.reorder_level)
    ∧ (∀ v, upd.supplier_id = some v → p'.supplier_id = v)
    ∧ (upd.supplier_id = none → p'.supplier_id = p.supplier_id)
    ∧ p'.id = p.id
    ∧ st'.sales = st.sales
    ∧ st'.sale_items = st.sale_items := by
  unfold updateProduct at hok
  simp only [hfind] at hok
  simp only [Except.ok.injEq, Prod.mk.injEq] at hok
  obtain ⟨hp', hst'⟩ := hok
  subst hp'
  subst hst'
  refine ⟨?_, ?_, ?_, ?_, ?_, ?_, ?_, ?_, ?_, ?_, ?_, ?_, rfl, rfl, rfl⟩
  all_goals intro a
  any_goals intro hv
  · simp [hv]
  · simp [a]
  · simp [hv]
  · simp [a]
  · simp [hv]
  · simp [a]
  · simp [hv]
  · simp [a]
  · simp [hv]
  · simp [a]
  · simp [hv]
  · simp [a]

set_option maxRecDepth 100000 in
/-- C9 witness: patching product A's unit price to 1200 and stock to 7
changes exactly those two fields; name, id and the stored sales are
untouched. -/
theorem c9_witness :
    prodAUpdated.unit_price_cents = 1200
    ∧ prodAUpdated.quantity_available = 7
    ∧ prodAUpdated.name = prodA.name
    ∧ prodAUpdated.id = prodA.id
    ∧ updatedState.sales = twoProductState.sales := by
  obtain ⟨hn1, hn2, hs1, hs2, hp1, hp2, hq1, hq2, hr1, hr2, hu1, hu2, hid, hsales, hitems⟩ :=
    c9_update_product twoProductState 1 updFixture prodA prodAUpdated updatedState
      (by decide) (by decide)
  exact ⟨hp1 1200 rfl, hq1 7 rfl, hn2 rfl, hid, hsales⟩

/-- C10: the product listing is the name-ascending ordering of the
stored products with the first `skip` dropped and at most `limit` kept
(at most 100 when `limit` is not given); it is sorted, bounded, and
drawn entirely from the stored products. -/
theorem c10_get_products (st : State) (skip limit : Nat) :
    getProducts st skip limit
        = ((List.insertionSort nameLe st.products).drop skip).take limit
    ∧ List.Perm (List.insertionSort nameLe st.products) st.products
    ∧ List.Sorted nameLe (getProducts st skip limit)
    ∧ (getProducts st skip limit).length ≤ limit
    ∧ (getProducts st skip).length ≤ 100
    ∧ (∀ q ∈ getProducts st skip limit, q ∈ st.products) := by
  haveI : IsTotal Product nameLe := ⟨nameLe_isTotal⟩
  haveI : IsTrans Product nameLe := ⟨nameLe_isTrans⟩
  refine ⟨rfl, List.perm_insertionSort nameLe st.products, ?_, ?_, ?_,
    getProducts_subset st skip limit⟩
  · have hsorted : List.Sorted nameLe (List.insertionSort nameLe st.products) :=
      List.sorted_insertionSort nameLe st.products
    have hsub : List.Sublist (((List.insertionSort nameLe st.products).drop skip).take limit)
        (List.insertionSort nameLe st.products) :=
      (List.take_sublist _ _).trans (List.drop_sublist _ _)
    exact List.Pairwise.sublist hsub hsorted
  · exact List.length_take_le _ _
  · exact List.length_take_le _ _

set_option maxRecDepth 100000 in
/-- C10 witness: every product listed from the two-product store is a
stored product — checked for product A at the default pagination. -/
theorem c10_witness : prodA ∈ twoProductState.products :=
  (c10_get_products twoProductState 0 100).2.2.2.2.2 prodA (by decide)

end RMS
